import Mathlib

/-
Verification of the netmiko session-automation core against its
natural-language specification.  The definitions below are shallow
embeddings of the Python source: pure functions become Lean functions,
stateful channel interactions become explicit state passing over small
simulation states, and raised exceptions become `Except` errors.
-/

set_option maxHeartbeats 1000000

/- ===================== netmiko/utilities.py : select_cmd_verify ===== -/

/--
Embedding of `select_cmd_verify` (utilities.py).  The decorator inspects
`self.global_cmd_verify`; when it is not `None` it overwrites the
`cmd_verify` keyword argument with the global value, otherwise it leaves
the keyword argument (possibly absent, modelled as `none`) unchanged.
The returned value is the `cmd_verify` entry of `kwargs` as seen by the
wrapped function.
-/
def select_cmd_verify (global_cmd_verify : Option Bool)
    (kwargs_cmd_verify : Option Bool) : Option Bool :=
  match global_cmd_verify with
  | some g => some g
  | none => kwargs_cmd_verify

/--
The `cmd_verify` value the wrapped operation effectively uses: the kwargs
entry produced by `select_cmd_verify` when present, otherwise the
operation's own default value for the parameter.
-/
def effective_cmd_verify (global_cmd_verify kwargs_cmd_verify : Option Bool)
    (strategy_default : Bool) : Bool :=
  (select_cmd_verify global_cmd_verify kwargs_cmd_verify).getD strategy_default

/- ===================== netmiko/utilities.py : SHOW_RUN_MAPPER ======== -/

/-- The base `SHOW_RUN_MAPPER` dictionary literal (utilities.py), before the
module-initialization expansion loop.  Association list in source order;
all keys are distinct, so first-match lookup agrees with Python dict
semantics. -/
def SHOW_RUN_MAPPER_base : List (String × String) :=
  [ ("juniper", "show configuration"),
    ("juniper_junos", "show configuration"),
    ("extreme", "show configuration"),
    ("extreme_ers", "show running-config"),
    ("extreme_exos", "show configuration"),
    ("extreme_netiron", "show running-config"),
    ("extreme_nos", "show running-config"),
    ("extreme_slx", "show running-config"),
    ("extreme_vdx", "show running-config"),
    ("extreme_vsp", "show running-config"),
    ("extreme_wing", "show running-config"),
    ("hp_comware", "display current-configuration"),
    ("huawei", "display current-configuration"),
    ("fortinet", "show full-configuration"),
    ("checkpoint", "show configuration"),
    ("cisco_wlc", "show run-config"),
    ("enterasys", "show running-config"),
    ("dell_force10", "show running-config"),
    ("avaya_vsp", "show running-config"),
    ("avaya_ers", "show running-config"),
    ("brocade_vdx", "show running-config"),
    ("brocade_nos", "show running-config"),
    ("brocade_fastiron", "show running-config"),
    ("brocade_netiron", "show running-config"),
    ("alcatel_aos", "show configuration snapshot") ]

/-- The expansion loop of utilities.py: for every pair `(k, v)` of the base
mapping, `new_dict` receives both `k ↦ v` and `(k ++ "_ssh") ↦ v`, in
iteration order; the result rebinds `SHOW_RUN_MAPPER`. -/
def SHOW_RUN_MAPPER : List (String × String) :=
  SHOW_RUN_MAPPER_base.foldl
    (fun acc kv => acc ++ [(kv.1, kv.2), (kv.1 ++ "_ssh", kv.2)]) []

/- ===================== BaseConnection helpers not under src =========== -/

/-- Modelled from the spec: command normalization before writing to the
channel (the repository's `BaseConnection.normalize_cmd` is not under
src); it ensures the command carries its line terminator. -/
def normalize_cmd (cmd : String) : String := cmd ++ "\n"

/- ===================== netmiko/mellanox/mellanox_mlnxos_ssh.py ======== -/

namespace MellanoxMlnxosSSH

/--
Simulated device for `exit_config_mode`: the device sits in `depth` nested
configuration contexts; `check_config_mode` reports configuration mode
while `depth` is positive, and each written `exit` command leaves one
context (decrements `depth` by one).  This is the "simulated device that
leaves configuration mode after exactly k exit commands" of the spec.
-/
def check_config_mode (depth : Nat) : Bool := decide (0 < depth)

/--
The `while check_count >= 0` loop of `MellanoxMlnxosSSH.exit_config_mode`.
`fuel` is the number of loop iterations still permitted, i.e.
`check_count + 1` while the Python counter `check_count` is nonnegative.
Each iteration checks configuration mode; if still in it, writes one
`exit` (decrementing the device nesting depth) and counts the attempt,
otherwise breaks.  Returns the final device depth and the number of exit
commands sent.
-/
def exit_config_loop : Nat → Nat → Nat → Nat × Nat
  | 0, depth, sent => (depth, sent)
  | fuel + 1, depth, sent =>
    if check_config_mode depth then exit_config_loop fuel (depth - 1) (sent + 1)
    else (depth, sent)

/-- The Python source initializes `check_count = 12`. -/
def check_count_init : Nat := 12

/--
Embedding of `MellanoxMlnxosSSH.exit_config_mode`: run the bounded exit
loop (the counter `check_count` starts at 12 and the loop body runs while
it is `>= 0`, i.e. at most `check_count_init + 1` iterations), then make
one final `check_config_mode` test and raise ("Failed to exit
configuration mode") if the device is still in configuration mode.  On
success, returns the final depth together with the number of exits sent.
-/
def exit_config_mode (depth : Nat) : Except String (Nat × Nat) :=
  let r := exit_config_loop (check_count_init + 1) depth 0
  if check_config_mode r.1 then Except.error "Failed to exit configuration mode"
  else Except.ok r

/--
Simulation state for `MellanoxMlnxosSSH.enable`: `inEnable` is what
`check_enable_mode` currently reports, `grantsEnable` says whether the
device actually enters enable mode when sent the transition command, and
`promptOutput` is what `read_until_prompt_or_pattern` returns after the
write.
-/
structure EnableSim where
  inEnable : Bool
  grantsEnable : Bool
  promptOutput : String

/-- `check_enable_mode` inspects the session state. -/
def check_enable_mode (s : EnableSim) : Bool := s.inEnable

/--
Embedding of `MellanoxMlnxosSSH.enable`: if not already in enable mode,
write the normalized transition command, read until the pattern,
re-validate with `check_enable_mode`, and raise ("Failed to enter enable
mode.") if the validation still fails; if already in enable mode the
method returns the empty string without touching the channel.  The result
carries the returned output, the post-call state, and the list of channel
writes performed.
-/
def enable (s : EnableSim) (cmd : String) :
    Except String (String × EnableSim × List String) :=
  if check_enable_mode s = false then
    let writes := [normalize_cmd cmd]
    let s2 : EnableSim := { s with inEnable := s.grantsEnable }
    let output : String := "" ++ s2.promptOutput
    if check_enable_mode s2 = false then
      Except.error "Failed to enter enable mode."
    else Except.ok (output, s2, writes)
  else Except.ok ("", s, [])

end MellanoxMlnxosSSH

/- ===================== netmiko/sixwind/sixwind_os.py ================== -/

namespace SixwindOSBase

/-- Embedding of `SixwindOSBase.check_enable_mode`: "6WIND has no enable
mode." — returns `True` for all arguments. -/
def check_enable_mode {α : Type} (args : α) : Bool := true

/-- Embedding of `SixwindOSBase.enable`: returns the empty string for all
arguments; the second component records the channel writes performed
(none). -/
def enable {α : Type} (args : α) : String × List String := ("", [])

/-- Embedding of `SixwindOSBase.exit_enable_mode`: returns the empty string
for all arguments; the second component records the channel writes
performed (none). -/
def exit_enable_mode {α : Type} (args : α) : String × List String := ("", [])

end SixwindOSBase

/- ===================== netmiko/utilities.py : structured-data hook ==== -/

/-- Python exceptions that can cross the structured-data boundary. -/
inductive PyExc where
  | fileNotFound : PyExc
  | cliTableError : PyExc
  | valueError : String → PyExc
  | otherExc : String → PyExc

/-- One parsed record, as produced by `clitable_to_dict`. -/
abbrev Row := List (String × String)

/-- Result of a structured-data call: either the raw text handed back
unchanged, or structured data. -/
inductive StructuredOut where
  | text : String → StructuredOut
  | structured : List Row → StructuredOut

/--
Possible outcomes of the external `textfsm_obj.ParseCmd` call (the
CliTable backend lives in `netmiko/_textfsm`, outside src): a successful
parse yielding the rows that `clitable_to_dict` would produce, or a
raised `FileNotFoundError`, a raised `CliTableError`, or any other raised
exception.
-/
inductive ParseCmdOutcome where
  | rows : List Row → ParseCmdOutcome
  | fileNotFound : ParseCmdOutcome
  | cliTableError : ParseCmdOutcome
  | otherExc : String → ParseCmdOutcome

/--
Embedding of `_textfsm_parse` (utilities.py): run `ParseCmd`; on success
convert to dictionaries and return the raw output if the structured data
is empty; the `except` clause catches exactly `FileNotFoundError` and
`CliTableError` and degrades them to the raw output, while any other
exception propagates to the caller.
-/
def textfsm_parse (outcome : ParseCmdOutcome) (raw_output : String) :
    Except PyExc StructuredOut :=
  match outcome with
  | ParseCmdOutcome.rows rs =>
    if rs = [] then Except.ok (StructuredOut.text raw_output)
    else Except.ok (StructuredOut.structured rs)
  | ParseCmdOutcome.fileNotFound => Except.ok (StructuredOut.text raw_output)
  | ParseCmdOutcome.cliTableError => Except.ok (StructuredOut.text raw_output)
  | ParseCmdOutcome.otherExc m => Except.error (PyExc.otherExc m)

/--
Environment of `get_structured_data`: `template_dir` is the result of
`get_template_dir()` (which raises `ValueError` when no TextFSM index
file can be located); the two oracles give the `ParseCmd` outcome for the
index-file path (template dir, attrs, raw output) and for the explicit
template-file path (template, raw output).
-/
structure TextFSMEnv where
  template_dir : Except String String
  parseWithAttrs : String → List (String × String) → String → ParseCmdOutcome
  parseWithTemplateFile : String → String → ParseCmdOutcome

/--
Embedding of `get_structured_data` (utilities.py).  `attrs` is empty iff
`platform` or `command` is `None`; with no `template`, an empty `attrs`
raises `ValueError`, otherwise `get_template_dir()` runs (propagating its
`ValueError` on failure) and the index-file CliTable parse is attempted;
with a `template`, the template-file CliTable parse is attempted.
-/
def get_structured_data (env : TextFSMEnv) (raw_output : String)
    (platform command template : Option String) : Except PyExc StructuredOut :=
  let attrs : List (String × String) :=
    match platform, command with
    | some p, some c => [("Command", c), ("Platform", p)]
    | _, _ => []
  match template with
  | none =>
    if attrs = [] then
      Except.error (PyExc.valueError
        "Either platform/command or template must be specified.")
    else
      match env.template_dir with
      | Except.error msg => Except.error (PyExc.valueError msg)
      | Except.ok tdir =>
        textfsm_parse (env.parseWithAttrs tdir attrs raw_output) raw_output
  | some t => textfsm_parse (env.parseWithTemplateFile t raw_output) raw_output

/--
Possible outcomes of the guarded TTP parsing block in
`get_structured_data_ttp` (everything inside the `try`): an empty result
(`ttp_output == {}`), a list result, a non-list non-empty result (whose
`assert` raises `AssertionError`, caught by `except Exception`), or any
exception raised during parsing (also caught).
-/
inductive TTPOutcome where
  | emptyResult : TTPOutcome
  | listResult : List Row → TTPOutcome
  | nonList : TTPOutcome
  | raises : String → TTPOutcome

/-- Environment of `get_structured_data_ttp`: whether the `ttp` package
imported, and the outcome of the parsing pipeline for (raw output,
template). -/
structure TTPEnv where
  TTP_INSTALLED : Bool
  ttpParse : String → String → TTPOutcome

/--
Embedding of `get_structured_data_ttp` (utilities.py): raises `ValueError`
when TTP is not installed; otherwise, with a template, runs the parsing
pipeline inside `try ... except Exception: pass` — an empty result, a
failed list assertion, or any raised exception all fall through to
returning the raw output — and with no template returns the raw output.
-/
def get_structured_data_ttp (env : TTPEnv) (raw_output : String)
    (template : Option String) : Except PyExc StructuredOut :=
  if env.TTP_INSTALLED = false then
    Except.error (PyExc.valueError "TTP is not installed. Please PIP install ttp")
  else
    match template with
    | none => Except.ok (StructuredOut.text raw_output)
    | some t =>
      match env.ttpParse raw_output t with
      | TTPOutcome.emptyResult => Except.ok (StructuredOut.text raw_output)
      | TTPOutcome.listResult rs => Except.ok (StructuredOut.structured rs)
      | TTPOutcome.nonList => Except.ok (StructuredOut.text raw_output)
      | TTPOutcome.raises _ => Except.ok (StructuredOut.text raw_output)

/-- A concrete environment in which `get_template_dir()` fails (no TextFSM
index file anywhere), with benign parse oracles. -/
def cexTextFSMEnv : TextFSMEnv :=
  { template_dir :=
      Except.error "Directory containing TextFSM index file not found.",
    parseWithAttrs := fun _ _ _ => ParseCmdOutcome.rows [],
    parseWithTemplateFile := fun _ _ => ParseCmdOutcome.rows [] }

/- ===================== netmiko/utilities.py : strip_ansi_escape_codes = -/

/-- The ASCII escape character `chr(27)`. -/
def escChar : Char := Char.ofNat 27

/-- A regex-pattern matcher specialized to the sanitizer's catalog: at the
head of the given character list, either match (returning the suffix that
follows the matched text) or fail.  Every catalog pattern consumes at
least one character when it matches. -/
abbrev Matcher := List Char → Option (List Char)

/-- Match one literal character. -/
def pLit (c : Char) : Matcher := fun s =>
  match s with
  | x :: xs => if x = c then some xs else none
  | [] => none

/-- Match two patterns in sequence. -/
def pSeq (p q : Matcher) : Matcher := fun s =>
  match p s with
  | some r => q r
  | none => none

/-- Match a literal character sequence. -/
def pStr : List Char → Matcher
  | [], s => some s
  | c :: cs, s =>
    match pLit c s with
    | some r => pStr cs r
    | none => none

/-- Regex alternation: try the left alternative first. -/
def pAlt (p q : Matcher) : Matcher := fun s =>
  match p s with
  | some r => some r
  | none => q s

/-- Match one decimal digit (regex `\d`). -/
def pDigit : Matcher := fun s =>
  match s with
  | x :: xs => if x.isDigit then some xs else none
  | [] => none

/-- Match one or more decimal digits, greedily (regex `\d+`).  In every
catalog pattern the token after `\d+` is a non-digit literal, so maximal
munch coincides with the backtracking regex semantics. -/
def pDigits1 : Matcher := fun s =>
  match s with
  | x :: xs =>
    if x.isDigit then some (List.dropWhile (fun c => c.isDigit) xs) else none
  | [] => none

/-- Match a character in an inclusive range (regex `[a-b]`). -/
def pRange (lo hi : Char) : Matcher := fun s =>
  match s with
  | x :: xs => if lo ≤ x then (if x ≤ hi then some xs else none) else none
  | [] => none

/-- Match the escape character followed by a continuation pattern.  Every
pattern of the sanitizer's catalog has this shape. -/
def pEsc (k : Matcher) : Matcher := pSeq (pLit escChar) k

/-- Match the CSI opener `ESC[` followed by a continuation pattern. -/
def pCSI (k : Matcher) : Matcher := pEsc (pSeq (pLit '[') k)

/- The catalog of `strip_ansi_escape_codes`, one matcher per source
pattern, with the source names. -/

/-- `ESC[\d+;\d+H` -/
def code_position_cursor : Matcher :=
  pCSI (pSeq pDigits1 (pSeq (pLit ';') (pSeq pDigits1 (pLit 'H'))))

/-- `ESC[?25h` -/
def code_show_cursor : Matcher := pCSI (pStr ['?', '2', '5', 'h'])

/-- `ESC` followed by `E` -/
def code_next_line : Matcher := pEsc (pLit 'E')

/-- `ESC[K` -/
def code_erase_line_end : Matcher := pCSI (pLit 'K')

/-- `ESC[2K` -/
def code_erase_line : Matcher := pCSI (pStr ['2', 'K'])

/-- `ESC[K` (listed separately in the source) -/
def code_erase_start_line : Matcher := pCSI (pLit 'K')

/-- `ESC[\d+;\d+r` -/
def code_enable_scroll : Matcher :=
  pCSI (pSeq pDigits1 (pSeq (pLit ';') (pSeq pDigits1 (pLit 'r'))))

/-- `ESC[1M` -/
def code_carriage_return : Matcher := pCSI (pStr ['1', 'M'])

/-- `ESC[?7l` -/
def code_disable_line_wrapping : Matcher := pCSI (pStr ['?', '7', 'l'])

/-- `ESC[?\d+l` -/
def code_reset_mode_screen_options : Matcher :=
  pCSI (pSeq (pLit '?') (pSeq pDigits1 (pLit 'l')))

/-- `ESC[00m` -/
def code_reset_graphics_mode : Matcher := pCSI (pStr ['0', '0', 'm'])

/-- `ESC[2J` -/
def code_erase_display : Matcher := pCSI (pStr ['2', 'J'])

/-- `ESC[J` -/
def code_erase_display_0 : Matcher := pCSI (pLit 'J')

/-- `ESC[\d\d;\d\dm` -/
def code_graphics_mode : Matcher :=
  pCSI (pSeq pDigit (pSeq pDigit (pSeq (pLit ';')
    (pSeq pDigit (pSeq pDigit (pLit 'm'))))))

/-- `ESC[\d\d;\d\d;\d\dm` -/
def code_graphics_mode2 : Matcher :=
  pCSI (pSeq pDigit (pSeq pDigit (pSeq (pLit ';')
    (pSeq pDigit (pSeq pDigit (pSeq (pLit ';')
      (pSeq pDigit (pSeq pDigit (pLit 'm')))))))))

/-- `ESC[(3|4)\dm` -/
def code_graphics_mode3 : Matcher :=
  pCSI (pSeq (pAlt (pLit '3') (pLit '4')) (pSeq pDigit (pLit 'm')))

/-- `ESC[(9|10)[0-7]m` -/
def code_graphics_mode4 : Matcher :=
  pCSI (pSeq (pAlt (pLit '9') (pStr ['1', '0'])) (pSeq (pRange '0' '7') (pLit 'm')))

/-- `ESC[6n` -/
def code_get_cursor_position : Matcher := pCSI (pStr ['6', 'n'])

/-- `ESC[m` -/
def code_cursor_position : Matcher := pCSI (pLit 'm')

/-- `ESC[0m` -/
def code_attrs_off : Matcher := pCSI (pStr ['0', 'm'])

/-- `ESC[7m` -/
def code_reverse : Matcher := pCSI (pStr ['7', 'm'])

/-- `ESC[\d+D` -/
def code_cursor_left : Matcher := pCSI (pSeq pDigits1 (pLit 'D'))

/-- The `code_set` list of the source, in source order (with
`code_erase_display` listed twice, as in the source). -/
def code_set : List Matcher :=
  [ code_position_cursor, code_show_cursor, code_erase_line,
    code_enable_scroll, code_erase_start_line, code_carriage_return,
    code_disable_line_wrapping, code_erase_line_end,
    code_reset_mode_screen_options, code_reset_graphics_mode,
    code_erase_display, code_graphics_mode, code_graphics_mode2,
    code_graphics_mode3, code_graphics_mode4, code_get_cursor_position,
    code_cursor_position, code_erase_display, code_erase_display_0,
    code_attrs_off, code_reverse, code_cursor_left ]

/-- Decimal value of a digit string, as Python `int` reads the captured
group. -/
def digitsToNat (ds : List Char) : Nat :=
  ds.foldl (fun a c => a * 10 + (c.toNat - 48)) 0

/-- `ESC[(\d+)L` with its captured count (regex group 1): returns the
decimal value of the digits together with the suffix after the match. -/
def code_insert_line (s : List Char) : Option (Nat × List Char) :=
  match s with
  | c :: rest =>
    if c = escChar then
      match rest with
      | b :: rest2 =>
        if b = '[' then
          match rest2 with
          | d :: _ =>
            if d.isDigit then
              match List.dropWhile (fun ch => ch.isDigit) rest2 with
              | l :: rest3 =>
                if l = 'L' then
                  some (digitsToNat (List.takeWhile (fun ch => ch.isDigit) rest2), rest3)
                else none
              | [] => none
            else none
          | [] => none
        else none
      | [] => none
    else none
  | [] => none

/-- `code_insert_line` as a plain matcher (capture forgotten), used for the
final substitution. -/
def code_insert_line_m : Matcher := fun s => (code_insert_line s).map Prod.snd

/--
Python `re.sub` over the character list: scan left to right; at each
position try the matcher; on a match emit the replacement and resume
after the matched text (leftmost, non-overlapping), otherwise keep the
character and advance.  `fuel` bounds the recursion; since every catalog
matcher consumes at least one character, `fuel = s.length` never runs
out.
-/
def reSubG (m : Matcher) (rep : List Char) : Nat → List Char → List Char
  | _, [] => []
  | 0, c :: cs => c :: cs
  | fuel + 1, c :: cs =>
    match m (c :: cs) with
    | some rest => rep ++ reSubG m rep fuel rest
    | none => c :: reSubG m rep fuel cs

/-- `re.sub(pattern, rep, s)` for a catalog matcher. -/
def reSub (m : Matcher) (rep : List Char) (s : List Char) : List Char :=
  reSubG m rep s.length s

/-- `re.search(code_insert_line, output)` followed by `int(group(1))`: the
captured count of the leftmost `ESC[(\d+)L` occurrence, if any. -/
def searchInsertLine : List Char → Option Nat
  | [] => none
  | c :: cs =>
    match code_insert_line (c :: cs) with
    | some (n, _) => some n
    | none => searchInsertLine cs

/-- The `for ansi_esc_code in code_set` loop of `strip_ansi_escape_codes`:
each catalog pattern is substituted with the empty string, in order. -/
def ansi_code_stage (s : List Char) : List Char :=
  code_set.foldl (fun out m => reSub m [] out) s

/-- The state of `output` just before the insert-line handling: the
deletion loop followed by the `code_next_line` substitution with
`return_str`. -/
def ansi_pre_insert_stage (s return_str : List Char) : List Char :=
  reSub code_next_line return_str (ansi_code_stage s)

/--
Embedding of `strip_ansi_escape_codes` (utilities.py): delete every
catalog pattern in order, substitute `code_next_line` with `return_str`,
then search for `ESC[(\d+)L`; if found, take `count` from the first
match and substitute every `ESC[(\d+)L` occurrence with `count` copies of
`return_str`.
-/
def strip_ansi_escape_codes (string_buffer return_str : List Char) : List Char :=
  let output := ansi_pre_insert_stage string_buffer return_str
  match searchInsertLine output with
  | some count =>
    reSub code_insert_line_m (List.flatten (List.replicate count return_str)) output
  | none => output

/--
Modelled from the spec claim wording (for comparison with the source):
every `ESC[(n)L` occurrence is replaced by `n` copies of `return_str`,
where `n` is the count carried by that occurrence itself.
-/
def insertPerOccurrenceG (return_str : List Char) : Nat → List Char → List Char
  | _, [] => []
  | 0, c :: cs => c :: cs
  | fuel + 1, c :: cs =>
    match code_insert_line (c :: cs) with
    | some (n, rest) =>
      List.flatten (List.replicate n return_str) ++ insertPerOccurrenceG return_str fuel rest
    | none => c :: insertPerOccurrenceG return_str fuel cs

/-- Per-occurrence insert-line expansion over a whole string. -/
def insertPerOccurrence (return_str s : List Char) : List Char :=
  insertPerOccurrenceG return_str s.length s

/-- Every `ESC[(\d+)L` occurrence replaced by a fixed number `n` of copies
of `return_str` (the amended per-occurrence rule: `n` is the count
carried by the first occurrence). -/
def insertWithFirstG (n : Nat) (return_str : List Char) : Nat → List Char → List Char
  | _, [] => []
  | 0, c :: cs => c :: cs
  | fuel + 1, c :: cs =>
    match code_insert_line (c :: cs) with
    | some (_, rest) =>
      List.flatten (List.replicate n return_str) ++ insertWithFirstG n return_str fuel rest
    | none => c :: insertWithFirstG n return_str fuel cs

/-- Fixed-count insert-line expansion over a whole string. -/
def insertWithFirst (n : Nat) (return_str s : List Char) : List Char :=
  insertWithFirstG n return_str s.length s

/-- Whether a catalog matcher matches at some position of the text. -/
def matchesSomewhere (m : Matcher) : List Char → Bool
  | [] => false
  | c :: cs => (m (c :: cs)).isSome || matchesSomewhere m cs

/-- Whether the text contains any control sequence of the sanitizer's
catalog (a deletion pattern, the next-line pattern, or an insert-line
pattern) at any position. -/
def containsCatalogSequence (t : List Char) : Bool :=
  (code_set.any fun m => matchesSomewhere m t) || matchesSomewhere code_next_line t
    || (searchInsertLine t).isSome

/-- Modelled from the spec: "Normalize all line terminators to a single
newline convention" (the repository's `normalize_linefeeds` is not under
src).  `CR LF` pairs and lone `CR` become `LF`. -/
def normalize_newlines : List Char → List Char
  | [] => []
  | '\r' :: '\n' :: rest => '\n' :: normalize_newlines rest
  | '\r' :: rest => '\n' :: normalize_newlines rest
  | c :: rest => c :: normalize_newlines rest

/-- Counterexample input for the per-occurrence claim: two insert-line
sequences carrying different counts. -/
def insertTwoCounts : List Char :=
  [escChar, '[', '1', 'L', escChar, '[', '2', 'L']

/-- Counterexample input for idempotence: deleting `ESC[2D` splices the
surrounding text `ESC[1` and `D` into a new `ESC[1D` sequence. -/
def spliceInput : List Char :=
  [escChar, '[', '1', escChar, '[', '2', 'D', 'D']

/-- Counterexample input for the clean-text claim: plain text with a CR LF
line terminator and no catalog control sequence. -/
def crlfInput : List Char := ['a', '\r', '\n', 'b']

/- ===================== Helper lemmas ================================== -/

/-- Closed form of the Mellanox exit loop: with `fuel` permitted
iterations, the device leaves `min depth fuel` contexts and that many
exit commands are sent. -/
theorem exit_loop_closed :
    ∀ (fuel depth sent : Nat),
      MellanoxMlnxosSSH.exit_config_loop fuel depth sent
        = (depth - fuel, sent + min depth fuel) := by
  intro fuel
  induction fuel with
  | zero =>
    intro depth sent
    simp [MellanoxMlnxosSSH.exit_config_loop]
  | succ f ih =>
    intro depth sent
    cases depth with
    | zero =>
      simp [MellanoxMlnxosSSH.exit_config_loop, MellanoxMlnxosSSH.check_config_mode]
    | succ d =>
      have hc : MellanoxMlnxosSSH.check_config_mode (d + 1) = true := by
        simp [MellanoxMlnxosSSH.check_config_mode]
      simp [MellanoxMlnxosSSH.exit_config_loop, hc, ih, Prod.ext_iff]
      omega

/-- Appending to the empty string is the identity. -/
theorem string_empty_append (s : String) : "" ++ s = s := rfl

/- ===================== Claim theorems ================================= -/

/--
C1: Echo-verification precedence in `select_cmd_verify`: when the
session's `global_cmd_verify` flag is set, the wrapped operation receives
`cmd_verify` equal to the global flag regardless of the per-call explicit
value; when the flag is `None`, the per-call explicit value — or, absent
one, the operation's default — is used unchanged.
-/
theorem claim_C1_cmd_verify_precedence :
    ∀ (g d : Bool) (per : Option Bool),
      select_cmd_verify (some g) per = some g ∧
      effective_cmd_verify (some g) per d = g ∧
      select_cmd_verify none per = per ∧
      effective_cmd_verify none per d = per.getD d := by decide

/--
C2 counterexample: against a device in 13 nested configuration contexts,
`exit_config_mode` is still in configuration mode after 12 exit attempts,
yet it does not fail: it sends a 13th exit and returns successfully — so
the retry ceiling is not 12 attempts.
-/
theorem claim_C2_counterexample :
    MellanoxMlnxosSSH.exit_config_mode 13 = Except.ok (0, 13) ∧
    MellanoxMlnxosSSH.check_config_mode
      (MellanoxMlnxosSSH.exit_config_loop 12 13 0).1 = true := ⟨rfl, rfl⟩

/--
C2 (amended): `exit_config_mode` sends the exit command in a loop bounded
by a ceiling of 13 attempts (the counter is initialized to 12 and the
loop runs while it is `>= 0`); at most 13 exit commands are ever sent,
and if after the ceiling is exhausted the session is still in
configuration mode, it fails with the mode-transition error
("Failed to exit configuration mode") rather than looping further.
-/
theorem claim_C2_exit_config_ceiling :
    ∀ depth : Nat,
      (MellanoxMlnxosSSH.exit_config_loop
        (MellanoxMlnxosSSH.check_count_init + 1) depth 0).2 ≤ 13 ∧
      (13 < depth →
        MellanoxMlnxosSSH.exit_config_mode depth
          = Except.error "Failed to exit configuration mode") := by
  intro depth
  constructor
  · rw [exit_loop_closed]
    show 0 + min depth (MellanoxMlnxosSSH.check_count_init + 1) ≤ 13
    simp only [MellanoxMlnxosSSH.check_count_init]
    omega
  · intro h
    have hc : MellanoxMlnxosSSH.check_config_mode (depth - 13) = true := by
      simp [MellanoxMlnxosSSH.check_config_mode]
      omega
    simp [MellanoxMlnxosSSH.exit_config_mode, MellanoxMlnxosSSH.check_count_init,
      exit_loop_closed, hc]

/-- C2 witness: a device 20 levels deep gets at most 13 exits and the call
fails. -/
theorem claim_C2_exit_config_ceiling_witness :
    (MellanoxMlnxosSSH.exit_config_loop
      (MellanoxMlnxosSSH.check_count_init + 1) 20 0).2 ≤ 13 ∧
    MellanoxMlnxosSSH.exit_config_mode 20
      = Except.error "Failed to exit configuration mode" :=
  ⟨(claim_C2_exit_config_ceiling 20).1,
   (claim_C2_exit_config_ceiling 20).2 (by decide)⟩

/--
C7: against a simulated device that leaves configuration mode after
exactly `k` exit commands, `exit_config_mode` returns normally for
`k ≤ 13` (the code's ceiling) having sent exactly `k` exits, and
afterwards `check_config_mode` is false; for `k > 13` it raises the
mode-transition error.
-/
theorem claim_C7_exit_config_simulation :
    ∀ k : Nat,
      (k ≤ 13 →
        MellanoxMlnxosSSH.exit_config_mode k = Except.ok (0, k) ∧
        MellanoxMlnxosSSH.check_config_mode 0 = false) ∧
      (13 < k →
        MellanoxMlnxosSSH.exit_config_mode k
          = Except.error "Failed to exit configuration mode") := by
  intro k
  constructor
  · intro hk
    have h1 : k - 13 = 0 := by omega
    have h2 : min k 13 = k := by omega
    constructor
    · simp [MellanoxMlnxosSSH.exit_config_mode, MellanoxMlnxosSSH.check_count_init,
        exit_loop_closed, MellanoxMlnxosSSH.check_config_mode, h1, h2]
    · rfl
  · intro hk
    have hc : MellanoxMlnxosSSH.check_config_mode (k - 13) = true := by
      simp [MellanoxMlnxosSSH.check_config_mode]
      omega
    simp [MellanoxMlnxosSSH.exit_config_mode, MellanoxMlnxosSSH.check_count_init,
      exit_loop_closed, hc]

/-- C7 witness: a device 3 levels deep succeeds with 3 exits; a device 14
levels deep fails. -/
theorem claim_C7_exit_config_simulation_witness :
    (MellanoxMlnxosSSH.exit_config_mode 3 = Except.ok (0, 3) ∧
      MellanoxMlnxosSSH.check_config_mode 0 = false) ∧
    MellanoxMlnxosSSH.exit_config_mode 14
      = Except.error "Failed to exit configuration mode" :=
  ⟨(claim_C7_exit_config_simulation 3).1 (by decide),
   (claim_C7_exit_config_simulation 14).2 (by decide)⟩

/--
C6: for the privileged tier, if `check_enable_mode` already holds then
`enable` writes nothing to the channel and returns the empty string;
otherwise it writes the transition command, reads until the expected
pattern, re-validates with `check_enable_mode`, and raises the
mode-transition error if the validation still does not hold after the
exchange.
-/
theorem claim_C6_enable_behaviour :
    ∀ (s : MellanoxMlnxosSSH.EnableSim) (cmd : String),
      (MellanoxMlnxosSSH.check_enable_mode s = true →
        MellanoxMlnxosSSH.enable s cmd = Except.ok ("", s, [])) ∧
      (MellanoxMlnxosSSH.check_enable_mode s = false → s.grantsEnable = false →
        MellanoxMlnxosSSH.enable s cmd
          = Except.error "Failed to enter enable mode.") ∧
      (MellanoxMlnxosSSH.check_enable_mode s = false → s.grantsEnable = true →
        MellanoxMlnxosSSH.enable s cmd
          = Except.ok (s.promptOutput, { s with inEnable := true },
              [normalize_cmd cmd])) := by
  intro s cmd
  refine ⟨fun h => ?_, fun h hg => ?_, fun h hg => ?_⟩
  · have h2 : s.inEnable = true := h
    simp [MellanoxMlnxosSSH.enable, MellanoxMlnxosSSH.check_enable_mode, h2]
  · have h2 : s.inEnable = false := h
    simp [MellanoxMlnxosSSH.enable, MellanoxMlnxosSSH.check_enable_mode, h2, hg]
  · have h2 : s.inEnable = false := h
    simp [MellanoxMlnxosSSH.enable, MellanoxMlnxosSSH.check_enable_mode, h2, hg,
      string_empty_append]

/-- C6 witness: the three behaviours at concrete session states. -/
theorem claim_C6_enable_behaviour_witness :
    MellanoxMlnxosSSH.enable ⟨true, true, "out"⟩ "enable"
      = Except.ok ("", ⟨true, true, "out"⟩, []) ∧
    MellanoxMlnxosSSH.enable ⟨false, false, "out"⟩ "enable"
      = Except.error "Failed to enter enable mode." ∧
    MellanoxMlnxosSSH.enable ⟨false, true, "out"⟩ "enable"
      = Except.ok ("out", ⟨true, true, "out"⟩, [normalize_cmd "enable"]) :=
  ⟨(claim_C6_enable_behaviour ⟨true, true, "out"⟩ "enable").1 rfl,
   (claim_C6_enable_behaviour ⟨false, false, "out"⟩ "enable").2.1 rfl rfl,
   (claim_C6_enable_behaviour ⟨false, true, "out"⟩ "enable").2.2 rfl rfl⟩

/--
C8: for the 6WIND profile without a privileged tier, `check_enable_mode`
returns `True` for all arguments, and `enable` and `exit_enable_mode` are
no-ops that write nothing to the channel and return the empty string, for
all arguments.
-/
theorem claim_C8_sixwind_no_enable_tier :
    ∀ {α : Type} (args : α),
      SixwindOSBase.check_enable_mode args = true ∧
      SixwindOSBase.enable args = ("", []) ∧
      SixwindOSBase.exit_enable_mode args = ("", []) :=
  fun _ => ⟨rfl, rfl, rfl⟩

/--
C10: after module initialization, for every vendor key `k` of the base
show-run mapping, the final `SHOW_RUN_MAPPER` contains both `k` and
`k ++ "_ssh"` as keys, and both map to the same show-run command string.
-/
theorem claim_C10_show_run_mapper_closure :
    ∀ kv ∈ SHOW_RUN_MAPPER_base,
      List.lookup kv.1 SHOW_RUN_MAPPER = some kv.2 ∧
      List.lookup (kv.1 ++ "_ssh") SHOW_RUN_MAPPER = some kv.2 := by decide

/-- C10 witness: the juniper key and its `_ssh` twin. -/
theorem claim_C10_show_run_mapper_closure_witness :
    List.lookup "juniper" SHOW_RUN_MAPPER = some "show configuration" ∧
    List.lookup "juniper_ssh" SHOW_RUN_MAPPER = some "show configuration" :=
  claim_C10_show_run_mapper_closure ("juniper", "show configuration") (by decide)

/--
C3 counterexample: with `platform` and `command` supplied but no template
and an environment in which `get_template_dir()` cannot locate a TextFSM
index file (a missing-template parsing failure), `get_structured_data`
raises `ValueError` to the caller instead of returning the raw text.
-/
theorem claim_C3_counterexample :
    get_structured_data cexTextFSMEnv "show version output"
        (some "cisco_ios") (some "show version") none
      = Except.error (PyExc.valueError
          "Directory containing TextFSM index file not found.") := rfl

/--
C3 (amended): parsing failures inside the guarded region degrade to the
original raw text — `_textfsm_parse` returns the raw output on
`FileNotFoundError`, on `CliTableError`, and on an empty parse result,
and `get_structured_data_ttp` (when TTP is installed) never raises — but
`get_structured_data` raises `ValueError` when neither `template` nor
`platform`/`command` is supplied or when template-directory resolution
fails, and `_textfsm_parse` propagates exceptions other than
`FileNotFoundError`/`CliTableError`.
-/
theorem claim_C3_structured_hook_guarded :
    (∀ raw : String,
      textfsm_parse ParseCmdOutcome.fileNotFound raw
        = Except.ok (StructuredOut.text raw)) ∧
    (∀ raw : String,
      textfsm_parse ParseCmdOutcome.cliTableError raw
        = Except.ok (StructuredOut.text raw)) ∧
    (∀ raw : String,
      textfsm_parse (ParseCmdOutcome.rows []) raw
        = Except.ok (StructuredOut.text raw)) ∧
    (∀ (env : TTPEnv) (raw : String) (t : Option String),
      env.TTP_INSTALLED = true →
        ∃ out, get_structured_data_ttp env raw t = Except.ok out) ∧
    (∀ (env : TextFSMEnv) (raw : String),
      get_structured_data env raw none none none
        = Except.error (PyExc.valueError
            "Either platform/command or template must be specified.")) ∧
    (∀ (env : TextFSMEnv) (raw p c msg : String),
      env.template_dir = Except.error msg →
        get_structured_data env raw (some p) (some c) none
          = Except.error (PyExc.valueError msg)) ∧
    (∀ (raw msg : String),
      textfsm_parse (ParseCmdOutcome.otherExc msg) raw
        = Except.error (PyExc.otherExc msg)) := by
  refine ⟨fun raw => rfl, fun raw => rfl, fun raw => rfl, ?_, fun env raw => rfl,
    ?_, fun raw msg => rfl⟩
  · intro env raw t hI
    cases t with
    | none => exact ⟨StructuredOut.text raw, by simp [get_structured_data_ttp, hI]⟩
    | some tp =>
      cases h : env.ttpParse raw tp with
      | emptyResult =>
        exact ⟨StructuredOut.text raw, by simp [get_structured_data_ttp, hI, h]⟩
      | listResult rs =>
        exact ⟨StructuredOut.structured rs, by simp [get_structured_data_ttp, hI, h]⟩
      | nonList =>
        exact ⟨StructuredOut.text raw, by simp [get_structured_data_ttp, hI, h]⟩
      | raises m =>
        exact ⟨StructuredOut.text raw, by simp [get_structured_data_ttp, hI, h]⟩
  · intro env raw p c msg h
    simp [get_structured_data, h]

/-- C3 witness: a degraded parse failure, a guarded TTP exception, and the
propagating template-directory failure, at concrete inputs. -/
theorem claim_C3_structured_hook_guarded_witness :
    textfsm_parse ParseCmdOutcome.fileNotFound "abc"
      = Except.ok (StructuredOut.text "abc") ∧
    (∃ out, get_structured_data_ttp ⟨true, fun _ _ => TTPOutcome.raises "boom"⟩
      "abc" (some "tmpl") = Except.ok out) ∧
    get_structured_data cexTextFSMEnv "abc" (some "cisco_ios")
        (some "show version") none
      = Except.error (PyExc.valueError
          "Directory containing TextFSM index file not found.") :=
  ⟨claim_C3_structured_hook_guarded.1 "abc",
   claim_C3_structured_hook_guarded.2.2.2.1
     ⟨true, fun _ _ => TTPOutcome.raises "boom"⟩ "abc" (some "tmpl") rfl,
   claim_C3_structured_hook_guarded.2.2.2.2.2.1 cexTextFSMEnv "abc" "cisco_ios"
     "show version" "Directory containing TextFSM index file not found." rfl⟩

/- ===================== Sanitizer lemmas =============================== -/

/-- Every catalog pattern starts with the escape character: at any other
head character the matcher fails. -/
theorem pEsc_ne (k : Matcher) (c : Char) (cs : List Char) (hc : c ≠ escChar) :
    pEsc k (c :: cs) = none := by
  simp [pEsc, pSeq, pLit, hc]

/-- Every member of `code_set` fails on a head character other than the
escape character. -/
theorem code_set_escStart :
    ∀ m ∈ code_set, ∀ (c : Char) (cs : List Char), c ≠ escChar →
      m (c :: cs) = none := by
  intro m hm
  simp only [code_set, List.mem_cons, List.not_mem_nil, or_false] at hm
  rcases hm with rfl | rfl | rfl | rfl | rfl | rfl | rfl | rfl | rfl | rfl | rfl |
    rfl | rfl | rfl | rfl | rfl | rfl | rfl | rfl | rfl | rfl | rfl <;>
    exact fun c cs hc => pEsc_ne _ c cs hc

/-- The insert-line pattern fails on a head character other than the
escape character. -/
theorem code_insert_line_ne (c : Char) (cs : List Char) (hc : c ≠ escChar) :
    code_insert_line (c :: cs) = none := by
  simp [code_insert_line, hc]

/-- A matcher that requires the escape character matches nowhere in
escape-free text. -/
theorem matchesSomewhere_eq_false_of_escStart (m : Matcher)
    (hm : ∀ c cs, c ≠ escChar → m (c :: cs) = none) :
    ∀ s : List Char, escChar ∉ s → matchesSomewhere m s = false := by
  intro s
  induction s with
  | nil => intro _; rfl
  | cons c cs ih =>
    intro hs
    have hc : c ≠ escChar := by
      intro h
      subst h
      exact hs (List.mem_cons_self _ _)
    have hcs : escChar ∉ cs := fun h => hs (List.mem_cons_of_mem c h)
    simp [matchesSomewhere, hm c cs hc, ih hcs]

/-- `re.sub` is the identity on text in which the pattern matches
nowhere. -/
theorem reSubG_id_of_noMatch (m : Matcher) (rep : List Char) :
    ∀ (fuel : Nat) (s : List Char),
      matchesSomewhere m s = false → reSubG m rep fuel s = s := by
  intro fuel
  induction fuel with
  | zero =>
    intro s _
    cases s <;> rfl
  | succ f ih =>
    intro s hs
    cases s with
    | nil => rfl
    | cons c cs =>
      simp only [matchesSomewhere, Bool.or_eq_false_iff] at hs
      obtain ⟨h1, h2⟩ := hs
      cases hmx : m (c :: cs) with
      | none => simp [reSubG, hmx, ih cs h2]
      | some r =>
        rw [hmx] at h1
        simp at h1

/-- `reSub` form of the no-match identity. -/
theorem reSub_id_of_noMatch (m : Matcher) (rep s : List Char)
    (hs : matchesSomewhere m s = false) : reSub m rep s = s :=
  reSubG_id_of_noMatch m rep s.length s hs

/-- The deletion loop of the sanitizer is the identity when none of its
patterns matches anywhere in the text. -/
theorem foldl_reSub_id_of_noMatch :
    ∀ (ms : List Matcher) (t : List Char),
      (∀ m ∈ ms, matchesSomewhere m t = false) →
      ms.foldl (fun out m => reSub m [] out) t = t := by
  intro ms
  induction ms with
  | nil => intro t _; rfl
  | cons m ms ih =>
    intro t h
    have h1 : reSub m [] t = t :=
      reSub_id_of_noMatch m [] t (h m (List.mem_cons_self m ms))
    simp only [List.foldl_cons, h1]
    exact ih t (fun m2 hm2 => h m2 (List.mem_cons_of_mem m hm2))

/-- An option with `isSome = false` is `none`. -/
theorem opt_none_of_isSome_false {α : Type} (o : Option α)
    (h : o.isSome = false) : o = none := by
  cases o with
  | none => rfl
  | some a => simp at h

/-- The sanitizer leaves text free of every catalog control sequence
unchanged. -/
theorem strip_id_of_noCatalog (t return_str : List Char)
    (ht : containsCatalogSequence t = false) :
    strip_ansi_escape_codes t return_str = t := by
  have h := ht
  simp only [containsCatalogSequence, Bool.or_eq_false_iff, List.any_eq_false,
    Bool.not_eq_true] at h
  obtain ⟨⟨hset, hnext⟩, hins⟩ := h
  have h1 : ansi_code_stage t = t := foldl_reSub_id_of_noMatch code_set t hset
  have h2 : ansi_pre_insert_stage t return_str = t := by
    unfold ansi_pre_insert_stage
    rw [h1]
    exact reSub_id_of_noMatch code_next_line return_str t hnext
  have h3 : searchInsertLine t = none := opt_none_of_isSome_false _ hins
  simp only [strip_ansi_escape_codes, h2, h3]

/-- Escape-free text has no insert-line occurrence. -/
theorem searchInsertLine_escFree :
    ∀ t : List Char, escChar ∉ t → searchInsertLine t = none := by
  intro t
  induction t with
  | nil => intro _; rfl
  | cons c cs ih =>
    intro hs
    have hc : c ≠ escChar := by
      intro h
      subst h
      exact hs (List.mem_cons_self _ _)
    have hcs : escChar ∉ cs := fun h => hs (List.mem_cons_of_mem c h)
    simp [searchInsertLine, code_insert_line_ne c cs hc, ih hcs]

/-- Escape-free text contains no catalog control sequence at all. -/
theorem containsCatalog_eq_false_of_escFree (t : List Char)
    (ht : escChar ∉ t) : containsCatalogSequence t = false := by
  simp only [containsCatalogSequence, Bool.or_eq_false_iff, List.any_eq_false,
    Bool.not_eq_true]
  refine ⟨⟨?_, ?_⟩, ?_⟩
  · intro m hm
    exact matchesSomewhere_eq_false_of_escStart m (code_set_escStart m hm) t ht
  · exact matchesSomewhere_eq_false_of_escStart code_next_line
      (fun c cs hc => pEsc_ne _ c cs hc) t ht
  · rw [searchInsertLine_escFree t ht]
    rfl

/-- The generic substitution engine, applied to the insert-line pattern
with a fixed replacement of `n` copies of `return_str`, is the
fixed-count per-occurrence expansion. -/
theorem reSub_insert_eq_withFirst (n : Nat) (return_str : List Char) :
    ∀ (fuel : Nat) (s : List Char),
      reSubG code_insert_line_m (List.flatten (List.replicate n return_str)) fuel s
        = insertWithFirstG n return_str fuel s := by
  intro fuel
  induction fuel with
  | zero =>
    intro s
    cases s <;> rfl
  | succ f ih =>
    intro s
    cases s with
    | nil => rfl
    | cons c cs =>
      simp only [reSubG, insertWithFirstG, code_insert_line_m]
      cases h : code_insert_line (c :: cs) with
      | none => simp [h, ih]
      | some p =>
        cases p with
        | mk k rest => simp [h, ih]

/- ===================== Sanitizer claim theorems ======================= -/

/--
C4 counterexample: for the input `ESC[1L ESC[2L` the deletion and
next-line stages change nothing, yet the sanitizer produces only two
newlines — the second occurrence, which carries count 2, is replaced with
the first occurrence's count 1 — while the claimed per-occurrence
expansion produces three newlines.
-/
theorem claim_C4_counterexample :
    ansi_pre_insert_stage insertTwoCounts ['\n'] = insertTwoCounts ∧
    strip_ansi_escape_codes insertTwoCounts ['\n'] = ['\n', '\n'] ∧
    insertPerOccurrence ['\n'] insertTwoCounts = ['\n', '\n', '\n'] ∧
    strip_ansi_escape_codes insertTwoCounts ['\n']
      ≠ insertPerOccurrence ['\n'] (ansi_pre_insert_stage insertTwoCounts ['\n']) := by
  decide

/--
C4 (amended): for every input and every occurrence of the insert-line
sequence `ESC[(n)L` remaining after the deletion and next-line stages,
the sanitizer replaces that occurrence with `k` synthesized newlines
where `k` is the count carried by the **first** occurrence in the string
(the count captured by `re.search`), not the occurrence's own count.
-/
theorem claim_C4_insert_line_first_count :
    ∀ (s return_str : List Char) (n : Nat),
      searchInsertLine (ansi_pre_insert_stage s return_str) = some n →
      strip_ansi_escape_codes s return_str
        = insertWithFirst n return_str (ansi_pre_insert_stage s return_str) := by
  intro s ret n h
  simp only [strip_ansi_escape_codes, h, reSub, insertWithFirst]
  exact reSub_insert_eq_withFirst n ret _ _

/-- C4 witness: a lone `ESC[2L` expands to two newlines via the
first-occurrence count. -/
theorem claim_C4_insert_line_first_count_witness :
    searchInsertLine (ansi_pre_insert_stage [escChar, '[', '2', 'L'] ['\n'])
      = some 2 ∧
    strip_ansi_escape_codes [escChar, '[', '2', 'L'] ['\n']
      = insertWithFirst 2 ['\n']
          (ansi_pre_insert_stage [escChar, '[', '2', 'L'] ['\n']) :=
  ⟨by decide,
   claim_C4_insert_line_first_count [escChar, '[', '2', 'L'] ['\n'] 2 (by decide)⟩

/--
C5 counterexample: on `ESC[1 ESC[2D D` the cursor-left pass deletes
`ESC[2D` and thereby splices the surrounding text into a fresh `ESC[1D`
sequence, which one application of the sanitizer leaves in place and a
second application removes — so the sanitizer is not idempotent on
sequences interleaved with arbitrary text.
-/
theorem claim_C5_counterexample :
    strip_ansi_escape_codes (strip_ansi_escape_codes spliceInput ['\n']) ['\n']
      ≠ strip_ansi_escape_codes spliceInput ['\n'] := by
  decide

/--
C5 (amended): the sanitizer is idempotent on every input whose sanitized
form contains no residual escape character — substitution can splice a
new escape sequence out of surrounding text, and only such residual
sequences are affected by a second pass.
-/
theorem claim_C5_sanitize_idempotent :
    ∀ (x return_str : List Char),
      escChar ∉ strip_ansi_escape_codes x return_str →
      strip_ansi_escape_codes (strip_ansi_escape_codes x return_str) return_str
        = strip_ansi_escape_codes x return_str :=
  fun _ ret h => strip_id_of_noCatalog _ ret (containsCatalog_eq_false_of_escFree _ h)

/-- C5 witness: idempotence on a concrete input containing a catalog
sequence whose sanitized form is escape-free. -/
theorem claim_C5_sanitize_idempotent_witness :
    strip_ansi_escape_codes
        (strip_ansi_escape_codes [escChar, '[', '2', 'J', 'o', 'k'] ['\n']) ['\n']
      = strip_ansi_escape_codes [escChar, '[', '2', 'J', 'o', 'k'] ['\n'] :=
  claim_C5_sanitize_idempotent [escChar, '[', '2', 'J', 'o', 'k'] ['\n'] (by decide)

/--
C9 counterexample: the text `a CR LF b` contains no catalog control
sequence, yet `strip_ansi_escape_codes` returns it unchanged (with CR
intact) while newline normalization would produce `a LF b` — line
terminators are not normalized by the sanitizer itself.
-/
theorem claim_C9_counterexample :
    containsCatalogSequence crlfInput = false ∧
    ¬ (strip_ansi_escape_codes crlfInput ['\n'] = normalize_newlines crlfInput) := by
  decide

/--
C9 (amended): for every text free of the sanitizer's catalog control
sequences, `strip_ansi_escape_codes` returns the text unchanged;
line-terminator normalization is a separate step outside this function,
so the composite sanitizer (control-code strip followed by newline
normalization) satisfies the claimed equation.
-/
theorem claim_C9_clean_text :
    ∀ (t return_str : List Char),
      containsCatalogSequence t = false →
      strip_ansi_escape_codes t return_str = t ∧
      normalize_newlines (strip_ansi_escape_codes t return_str)
        = normalize_newlines t := by
  intro t ret h
  have h1 := strip_id_of_noCatalog t ret h
  exact ⟨h1, by rw [h1]⟩

/-- C9 witness: clean multi-line text passes through unchanged. -/
theorem claim_C9_clean_text_witness :
    strip_ansi_escape_codes ['h', 'i', '\n'] ['\n'] = ['h', 'i', '\n'] ∧
    normalize_newlines (strip_ansi_escape_codes ['h', 'i', '\n'] ['\n'])
      = normalize_newlines ['h', 'i', '\n'] :=
  claim_C9_clean_text ['h', 'i', '\n'] ['\n'] (by decide)
